import Mathlib

/-!
Verification of the reliability/guardrail/execution core of the MyAWSHub
trading pipeline against its specification.

The development shallowly embeds the relevant Python source:
* `EventPublisher` models `publish_analysis_event` from
  `Mohamed-TradeBot/lambdas/fetch_lambda/fetch_lambda.py` (tiered delivery).
* `TradeAuto` models `Guardrails.check_and_record` from
  `TradeAuto/src/common/aws_utils.py` (debounce, per-symbol cooldown,
  daily cap over an S3-backed state).
* `BrokerGateway` models `_request_with_retries` and `place_order` from
  `Project4-Swing-Automation-System/Lambda/webhook-trading.py`.
* `SwingWebhook` models the decision pipeline of `lambda_handler` in the
  same file, over an explicit DynamoDB-table state.

Network and store calls are represented by explicit outcome oracles; time is
an `Int` epoch-second argument; machine floats from the source are modelled
as rationals.
-/

namespace EventPublisher

/-- Outcome of one `events.put_events` (or fallback) call as observed by
`publish_analysis_event`: either a response carrying the value of
`response.get('FailedEntryCount', 1)` (so a response missing the field is
modelled as count 1), or a raised exception. -/
inductive PutOutcome where
  | response (failedEntryCount : Nat)
  | exn (msg : String)
  deriving DecidableEq, Repr

/-- The success test applied to one attempt:
`response.get('FailedEntryCount', 1) == 0`; an exception is never a
success. A response with a non-zero failed-entry count is a failure. -/
def putSucceeded : PutOutcome → Bool
  | .response n => n == 0
  | .exn _ => false

/-- Environment (fake bus) for one run of `publish_analysis_event`:
the outcome each numbered primary `put_events` attempt would have, the
outcome of the single fallback `put_events`, the `ANALYSIS_LAMBDA_NAME`
environment variable, and whether the direct async `lambda.invoke` call
would return without raising. -/
structure PublishEnv where
  primary : Nat → PutOutcome
  fallback : PutOutcome
  analysis_lambda_name : Option String
  direct_invoke_ok : Bool

/-- The `for attempt in range(1, max_attempts + 1)` loop: returns `true` at
the first attempt whose response reports zero failed entries; a reported
failure or an exception falls through to the next attempt. -/
def primary_attempts_loop (env : PublishEnv) : List Nat → Bool
  | [] => false
  | attempt :: rest =>
      if putSucceeded (env.primary attempt) then true
      else primary_attempts_loop env rest

/-- `publish_analysis_event` (fetch_lambda.py): three primary attempts
(`max_attempts = 3`, so the loop runs over attempts `[1, 2, 3]`), then a
single reduced-information fallback `put_events`, then — only when
`ANALYSIS_LAMBDA_NAME` is configured — a direct asynchronous invoke of the
analysis lambda; `false` when everything failed. -/
def publish_analysis_event (env : PublishEnv) : Bool :=
  if primary_attempts_loop env [1, 2, 3] then true
  else if putSucceeded env.fallback then true
  else
    match env.analysis_lambda_name with
    | some _ => env.direct_invoke_ok
    | none => false

end EventPublisher

namespace EventPublisher

/-- C1: `publish_analysis_event` returns `true` exactly when some tier
succeeds: a primary bus publish with zero failed entries on attempt 1, 2 or
3 (a non-zero failed-entry count on a response counts as a failure), or the
single fallback publish, or — when a downstream lambda name is configured —
the direct asynchronous invocation; it returns `false` only when all three
tiers fail. -/
theorem publish_returns_true_iff_some_tier_succeeds (env : PublishEnv) :
    publish_analysis_event env = true ↔
      (putSucceeded (env.primary 1) = true ∨ putSucceeded (env.primary 2) = true ∨
        putSucceeded (env.primary 3) = true) ∨
      putSucceeded env.fallback = true ∨
      (env.analysis_lambda_name.isSome = true ∧ env.direct_invoke_ok = true) := by
  cases h1 : putSucceeded (env.primary 1) <;>
    cases h2 : putSucceeded (env.primary 2) <;>
      cases h3 : putSucceeded (env.primary 3) <;>
        cases hf : putSucceeded env.fallback <;>
          cases ha : env.analysis_lambda_name <;>
            simp [publish_analysis_event, primary_attempts_loop, h1, h2, h3, hf, ha]

end EventPublisher

namespace TradeAuto

/-- Configuration of `Guardrails.__init__` (aws_utils.py), read from the
environment: `DEBOUNCE_SECONDS` (default 30),
`MIN_INTERVAL_SAME_SYMBOL_SECONDS` (default 300), `MAX_TRADES_PER_DAY`
(default 20). -/
structure GuardConfig where
  debounce_seconds : Int
  min_interval_symbol : Int
  max_trades_day : Int
  deriving Repr

/-- The S3-backed guardrail state read and written by `check_and_record`:
`guardrails/debounce.json` holds a global `last_ts` (0 when the object or
field is absent, per `int(de.get("last_ts", 0))`); each
`guardrails/symbol/<SYMBOL>.json` holds a per-symbol `last_ts` keyed by the
upper-cased symbol; each `guardrails/daily/<day>.json` holds a `count`
keyed by the UTC calendar day (`{"count": 0}` when absent). -/
structure GuardState where
  debounce_last_ts : Int
  symbol_last_ts : String → Int
  day_count : Int → Int

/-- UTC calendar day of an epoch timestamp, as used by
`time.strftime("%Y-%m-%d", time.gmtime())` to bucket the daily counter. -/
def utcDay (now : Int) : Int := now / 86400

/-- Python `str.upper()` as used in the per-symbol key
`guardrails/symbol/{symbol.upper()}.json`, modelled character-wise (ticker
symbols are ASCII). -/
def pyUpper (s : String) : String := String.mk (s.data.map Char.toUpper)

/-- The `{"allowed": ..., "reason": ...}` dict returned by
`check_and_record`. -/
structure GuardDecision where
  allowed : Bool
  reason : Option String
  deriving DecidableEq, Repr

/-- The "Record intents" block of `check_and_record`: write the global
debounce timestamp, the upper-cased-symbol timestamp, and the incremented
daily counter for the current UTC day. -/
def recordedState (st : GuardState) (symbol : String) (now : Int) : GuardState :=
  { debounce_last_ts := now
    symbol_last_ts := fun s => if s = pyUpper symbol then now else st.symbol_last_ts s
    day_count := fun d => if d = utcDay now then st.day_count (utcDay now) + 1
                          else st.day_count d }

@[simp] lemma recordedState_debounce (st : GuardState) (symbol : String) (now : Int) :
    (recordedState st symbol now).debounce_last_ts = now := rfl

@[simp] lemma recordedState_symbol_self (st : GuardState) (symbol : String) (now : Int) :
    (recordedState st symbol now).symbol_last_ts (pyUpper symbol) = now := if_pos rfl

@[simp] lemma recordedState_day_self (st : GuardState) (symbol : String) (now : Int) :
    (recordedState st symbol now).day_count (utcDay now) =
      st.day_count (utcDay now) + 1 := if_pos rfl

/-- `Guardrails.check_and_record` (aws_utils.py): check the debounce window,
then the per-symbol cooldown, then the daily cap, each returning a denial
with its reason string; when all pass, record the admission (global
debounce timestamp, upper-cased-symbol timestamp, incremented daily
counter) and return allowed. -/
def check_and_record (cfg : GuardConfig) (st : GuardState) (symbol : String)
    (now : Int) : GuardDecision × GuardState :=
  if now - st.debounce_last_ts < cfg.debounce_seconds then
    ({ allowed := false,
       reason := some ("debounce:" ++ toString cfg.debounce_seconds ++ "s") }, st)
  else if now - st.symbol_last_ts (pyUpper symbol) < cfg.min_interval_symbol then
    ({ allowed := false,
       reason := some ("symbol_interval:" ++ toString cfg.min_interval_symbol ++ "s") }, st)
  else if cfg.max_trades_day ≤ st.day_count (utcDay now) then
    ({ allowed := false,
       reason := some ("daily_cap:" ++ toString cfg.max_trades_day) }, st)
  else
    ({ allowed := true, reason := none }, recordedState st symbol now)

/-- A sequence of sequential guardrail checks: fold `check_and_record` over
a list of (symbol, timestamp) signals, threading the state. -/
def runGuards (cfg : GuardConfig) : GuardState → List (String × Int) → GuardState
  | st, [] => st
  | st, (s, t) :: rest => runGuards cfg (check_and_record cfg st s t).2 rest

/-- Default deployment configuration: 30 s debounce, 300 s per-symbol
cooldown, 20 trades per day. -/
def cfg0 : GuardConfig :=
  { debounce_seconds := 30, min_interval_symbol := 300, max_trades_day := 20 }

/-- Same configuration with a daily cap of 1, to reach the cap quickly. -/
def cfg1 : GuardConfig :=
  { debounce_seconds := 30, min_interval_symbol := 300, max_trades_day := 1 }

/-- Fresh guardrail state: no prior debounce marker, symbol timestamps or
daily counters (all JSON objects absent, read as zero). -/
def st0 : GuardState :=
  { debounce_last_ts := 0, symbol_last_ts := fun _ => 0, day_count := fun _ => 0 }

lemma check_allowed_state {cfg : GuardConfig} {st : GuardState} {s : String}
    {t : Int} (h : (check_and_record cfg st s t).1.allowed = true) :
    (check_and_record cfg st s t).2 = recordedState st s t := by
  unfold check_and_record at h ⊢
  split_ifs at h ⊢ <;> simp_all

lemma check_denied_state {cfg : GuardConfig} {st : GuardState} {s : String}
    {t : Int} (h : (check_and_record cfg st s t).1.allowed = false) :
    (check_and_record cfg st s t).2 = st := by
  unfold check_and_record at h ⊢
  split_ifs at h ⊢ <;> simp_all

end TradeAuto

namespace TradeAuto

/-- C2: if a guardrail call for a valid signal is admitted (and thereby
recorded), a second call made less than `debounceSeconds` later — for any
signal — is denied with the debounce reason. -/
theorem second_call_within_debounce_denied
    (cfg : GuardConfig) (st : GuardState) (s s2 : String) (t t2 : Int)
    (h1 : (check_and_record cfg st s t).1.allowed = true)
    (h2 : t2 - t < cfg.debounce_seconds) :
    (check_and_record cfg (check_and_record cfg st s t).2 s2 t2).1 =
      { allowed := false,
        reason := some ("debounce:" ++ toString cfg.debounce_seconds ++ "s") } := by
  rw [check_allowed_state h1]
  unfold check_and_record
  simp [h2]

/-- Witness for C2: with the default configuration, a fresh state, and an
admitted "AAPL" signal at t = 1000, a second identical signal at
t = 1010 (10 s < 30 s later) is denied with reason "debounce:30s". -/
theorem second_call_within_debounce_denied_witness :
    (check_and_record cfg0 st0 "AAPL" 1000).1.allowed = true ∧
    (1010 : Int) - 1000 < cfg0.debounce_seconds ∧
    (check_and_record cfg0 (check_and_record cfg0 st0 "AAPL" 1000).2 "AAPL" 1010).1 =
      { allowed := false,
        reason := some ("debounce:" ++ toString cfg0.debounce_seconds ++ "s") } :=
  ⟨by decide, by decide,
   second_call_within_debounce_denied cfg0 st0 "AAPL" "AAPL" 1000 1010
     (by decide) (by decide)⟩

lemma check_day_count_le {cfg : GuardConfig} {st : GuardState}
    (hst : ∀ d, st.day_count d ≤ cfg.max_trades_day) (s : String) (t : Int) :
    ∀ d, (check_and_record cfg st s t).2.day_count d ≤ cfg.max_trades_day := by
  intro d
  unfold check_and_record
  split_ifs with h1 h2 h3
  · exact hst d
  · exact hst d
  · exact hst d
  · simp only [recordedState]
    split_ifs with hd
    · have := hst (utcDay t)
      omega
    · exact hst d

lemma runGuards_day_count_le {cfg : GuardConfig}
    (reqs : List (String × Int)) :
    ∀ st : GuardState, (∀ d, st.day_count d ≤ cfg.max_trades_day) →
      ∀ d, (runGuards cfg st reqs).day_count d ≤ cfg.max_trades_day := by
  induction reqs with
  | nil => intro st hst d; exact hst d
  | cons p rest ih =>
      intro st hst d
      obtain ⟨s, t⟩ := p
      exact ih _ (check_day_count_le hst s t) d

/-- C5 counterexample: with a daily cap of 1, a fresh state, and an admitted
"AAPL" signal at t = 1000 (which raises the day's counter to the cap), a
further "AAPL" signal the same day at t = 1010 is rejected — but with the
debounce reason, not the daily-cap reason, because the debounce window is
checked first. -/
theorem daily_cap_counterexample :
    (check_and_record cfg1 st0 "AAPL" 1000).1.allowed = true ∧
    (check_and_record cfg1 st0 "AAPL" 1000).2.day_count (utcDay 1010) =
      cfg1.max_trades_day ∧
    utcDay 1010 = utcDay 1000 ∧
    (check_and_record cfg1 (check_and_record cfg1 st0 "AAPL" 1000).2 "AAPL" 1010).1.allowed
      = false ∧
    (check_and_record cfg1 (check_and_record cfg1 st0 "AAPL" 1000).2 "AAPL" 1010).1.reason
      ≠ some ("daily_cap:" ++ toString cfg1.max_trades_day) ∧
    (check_and_record cfg1 (check_and_record cfg1 st0 "AAPL" 1000).2 "AAPL" 1010).1.reason
      = some ("debounce:" ++ toString cfg1.debounce_seconds ++ "s") := by
  decide

/-- C5 (amended): over any sequence of sequential guardrail checks, the
daily counter never exceeds `maxTradesPerDay`; once the counter for the
current day has reached the cap, a further signal that day is rejected
without incrementing the counter (leaving the state unchanged), and the
rejection carries the daily-cap reason whenever the debounce window and the
per-symbol cooldown have already elapsed (otherwise the earlier check's
reason is reported). -/
theorem daily_counter_never_exceeds_cap
    (cfg : GuardConfig) (st : GuardState)
    (hst : ∀ d, st.day_count d ≤ cfg.max_trades_day) :
    (∀ reqs d, (runGuards cfg st reqs).day_count d ≤ cfg.max_trades_day) ∧
    (∀ s t, cfg.max_trades_day ≤ st.day_count (utcDay t) →
       (check_and_record cfg st s t).1.allowed = false ∧
       (check_and_record cfg st s t).2 = st ∧
       (cfg.debounce_seconds ≤ t - st.debounce_last_ts →
        cfg.min_interval_symbol ≤ t - st.symbol_last_ts (pyUpper s) →
        (check_and_record cfg st s t).1.reason =
          some ("daily_cap:" ++ toString cfg.max_trades_day))) := by
  constructor
  · intro reqs d
    exact runGuards_day_count_le reqs st hst d
  · intro s t hsat
    unfold check_and_record
    by_cases h1 : t - st.debounce_last_ts < cfg.debounce_seconds
    · simp only [if_pos h1]
      exact ⟨by simp, by simp, fun hd _ => absurd h1 (by omega)⟩
    · simp only [if_neg h1]
      by_cases h2 : t - st.symbol_last_ts (pyUpper s) < cfg.min_interval_symbol
      · simp only [if_pos h2]
        exact ⟨by simp, by simp, fun _ hs => absurd h2 (by omega)⟩
      · simp only [if_neg h2, if_pos hsat]
        exact ⟨by simp, by simp, fun _ _ => by simp⟩

/-- Witness for C5 (amended): instantiated at the default configuration and
a fresh state, after the two-signal sequence of the counterexample the
counter for day 0 is still at most the cap, and with the cap already
reached the next check is denied without touching the state. -/
theorem daily_counter_never_exceeds_cap_witness :
    (runGuards cfg1 st0 [("AAPL", 1000), ("AAPL", 1010)]).day_count 0 ≤
      cfg1.max_trades_day ∧
    (check_and_record cfg1 (check_and_record cfg1 st0 "AAPL" 1000).2 "AAPL" 1010).1.allowed
      = false := by
  have h0 : ∀ d, st0.day_count d ≤ cfg1.max_trades_day := fun _ => by
    show (0 : Int) ≤ (1 : Int)
    decide
  exact
    ⟨(daily_counter_never_exceeds_cap cfg1 st0 h0).1 [("AAPL", 1000), ("AAPL", 1010)] 0,
     ((daily_counter_never_exceeds_cap cfg1 (check_and_record cfg1 st0 "AAPL" 1000).2
         (check_day_count_le h0 "AAPL" 1000)).2 "AAPL" 1010 (by decide)).1⟩

/-- C6 counterexample: the guardrail check does not leave the state
unchanged — with the default configuration and a fresh state, a single
allowed call of `check_and_record` writes the debounce timestamp and
increments the daily counter as part of the check itself, before the caller
has decided whether to execute. -/
theorem check_not_read_only_counterexample :
    (check_and_record cfg0 st0 "AAPL" 1000).1.allowed = true ∧
    (check_and_record cfg0 st0 "AAPL" 1000).2.debounce_last_ts ≠ st0.debounce_last_ts ∧
    (check_and_record cfg0 st0 "AAPL" 1000).2.day_count (utcDay 1000) ≠
      st0.day_count (utcDay 1000) ∧
    (check_and_record cfg0 st0 "AAPL" 1000).2.symbol_last_ts "AAPL" ≠
      st0.symbol_last_ts "AAPL" := by
  decide

/-- C6 (amended): `check_and_record` leaves the guardrail state unchanged
exactly when it denies; when it allows, the same call records admission
(global debounce timestamp, per-symbol timestamp, incremented daily
counter) before the caller decides to execute — so a caller that is allowed
but does not proceed has already consumed a guardrail slot. -/
theorem check_records_on_allow
    (cfg : GuardConfig) (st : GuardState) (s : String) (t : Int) :
    ((check_and_record cfg st s t).1.allowed = false →
       (check_and_record cfg st s t).2 = st) ∧
    ((check_and_record cfg st s t).1.allowed = true →
       (check_and_record cfg st s t).2.debounce_last_ts = t ∧
       (check_and_record cfg st s t).2.symbol_last_ts (pyUpper s) = t ∧
       (check_and_record cfg st s t).2.day_count (utcDay t) =
         st.day_count (utcDay t) + 1) :=
  ⟨fun h => check_denied_state h,
   fun h => by rw [check_allowed_state h]; exact ⟨rfl, by simp, by simp⟩⟩

/-- Witness for C6 (amended): at the default configuration and a fresh
state, the allowed "AAPL" check at t = 1000 has recorded the debounce
timestamp 1000 and a daily count of 1. -/
theorem check_records_on_allow_witness :
    (check_and_record cfg0 st0 "AAPL" 1000).2.debounce_last_ts = 1000 ∧
    (check_and_record cfg0 st0 "AAPL" 1000).2.day_count (utcDay 1000) =
      st0.day_count (utcDay 1000) + 1 := by
  have h := (check_records_on_allow cfg0 st0 "AAPL" 1000).2 (by decide)
  exact ⟨h.1, h.2.2⟩

/-- C9 counterexample: after an admitted "AAPL" trade at t = 10000, a
further "AAPL" signal at t = 10010 arrives strictly within the 300 s
per-symbol cooldown, but the rejection reason is "debounce:30s", not the
symbol-interval reason, because the debounce window is checked first. -/
theorem symbol_cooldown_counterexample :
    (check_and_record cfg0 st0 "AAPL" 10000).1.allowed = true ∧
    ((10010 : Int) - 10000 < cfg0.min_interval_symbol) ∧
    (check_and_record cfg0 (check_and_record cfg0 st0 "AAPL" 10000).2 "AAPL" 10010).1.allowed
      = false ∧
    (check_and_record cfg0 (check_and_record cfg0 st0 "AAPL" 10000).2 "AAPL" 10010).1.reason
      ≠ some ("symbol_interval:" ++ toString cfg0.min_interval_symbol ++ "s") ∧
    (check_and_record cfg0 (check_and_record cfg0 st0 "AAPL" 10000).2 "AAPL" 10010).1.reason
      = some ("debounce:" ++ toString cfg0.debounce_seconds ++ "s") := by
  decide

/-- C9 (amended): after an admitted and recorded trade for a symbol, any
signal for that symbol arriving strictly less than `minIntervalSeconds`
later is rejected, and the reason identifies the symbol-interval cooldown
whenever at least `debounceSeconds` have elapsed since the admitted trade
(otherwise the debounce reason is reported); a signal for the symbol
arriving at least `minIntervalSeconds + 1` later, with the debounce window
elapsed and the daily cap not reached, is admitted again. -/
theorem symbol_cooldown_blocks_then_readmits
    (cfg : GuardConfig) (st : GuardState) (s : String) (t t2 : Int)
    (h1 : (check_and_record cfg st s t).1.allowed = true) :
    (t2 - t < cfg.min_interval_symbol →
       (check_and_record cfg (check_and_record cfg st s t).2 s t2).1.allowed = false ∧
       (cfg.debounce_seconds ≤ t2 - t →
         (check_and_record cfg (check_and_record cfg st s t).2 s t2).1.reason =
           some ("symbol_interval:" ++ toString cfg.min_interval_symbol ++ "s"))) ∧
    (cfg.min_interval_symbol + 1 ≤ t2 - t →
     cfg.debounce_seconds ≤ t2 - t →
     (check_and_record cfg st s t).2.day_count (utcDay t2) < cfg.max_trades_day →
     (check_and_record cfg (check_and_record cfg st s t).2 s t2).1.allowed = true) := by
  rw [check_allowed_state h1]
  constructor
  · intro hlt
    unfold check_and_record
    simp only [recordedState_debounce, recordedState_symbol_self]
    by_cases hdeb : t2 - t < cfg.debounce_seconds
    · simp [hdeb]
    · rw [if_neg hdeb, if_pos hlt]
      exact ⟨rfl, fun _ => rfl⟩
  · intro hgap hdeb hday
    unfold check_and_record
    simp only [recordedState_debounce, recordedState_symbol_self]
    have hnd : ¬ t2 - t < cfg.debounce_seconds := by omega
    have hns : ¬ t2 - t < cfg.min_interval_symbol := by omega
    rw [if_neg hnd, if_neg hns, if_neg (not_le.mpr hday)]

/-- Witness for C9 (amended): at the default configuration, after an
admitted "AAPL" trade at t = 10000, the signal at t = 10040 (40 s later —
debounce elapsed, cooldown not) is denied with the symbol-interval reason,
and the signal at t = 10301 (301 s later) is admitted again. -/
theorem symbol_cooldown_blocks_then_readmits_witness :
    (check_and_record cfg0 (check_and_record cfg0 st0 "AAPL" 10000).2 "AAPL" 10040).1.reason
      = some ("symbol_interval:" ++ toString cfg0.min_interval_symbol ++ "s") ∧
    (check_and_record cfg0 (check_and_record cfg0 st0 "AAPL" 10000).2 "AAPL" 10301).1.allowed
      = true := by
  refine
    ⟨((symbol_cooldown_blocks_then_readmits cfg0 st0 "AAPL" 10000 10040 (by decide)).1
        (by decide)).2 (by decide),
     (symbol_cooldown_blocks_then_readmits cfg0 st0 "AAPL" 10000 10301 (by decide)).2
        (by decide) (by decide) (by decide)⟩

end TradeAuto

namespace BrokerGateway

/-- The broker's JSON reply to a successful (2xx) request, as far as the
webhook handler inspects it: whether the object contains an `id` key, the
`id` value (the simulated reply carries an `id` key holding null), and the
`status` value. -/
structure OrderJson where
  hasId : Bool
  id : Option String
  status : Option String
  deriving DecidableEq, Repr

/-- Outcome of one HTTP attempt inside `_request_with_retries`
(webhook-trading.py): a 2xx response with a JSON body; a non-2xx status, on
which `resp.raise_for_status()` raises an HTTPError (401 and 403
authentication failures included); or a transport/network exception. -/
inductive AttemptOutcome where
  | ok (body : OrderJson)
  | httpError (status : Int)
  | netError (msg : String)
  deriving DecidableEq, Repr

/-- The message of the exception an attempt raised. -/
def outcomeErr : AttemptOutcome → String
  | .ok _ => ""
  | .httpError status => "status " ++ toString status
  | .netError msg => msg

/-- `_request_with_retries` (webhook-trading.py): the
`for attempt in range(1, retries + 1)` loop returns the JSON body of the
first 2xx attempt; every exception — HTTP error (401/403 included) or
network error alike — is caught by the blanket `except Exception` handler
and retried, and only the final attempt's exception is re-raised. The list
argument holds the outcome each successive attempt would have, its length
being the `retries` budget. -/
def request_with_retries : List AttemptOutcome → Except String OrderJson
  | [] => .error "no attempts made"
  | o :: rest =>
      match o, rest with
      | .ok body, _ => .ok body
      | e, [] => .error (outcomeErr e)
      | _, r :: rs => request_with_retries (r :: rs)

/-- Number of HTTP attempts the loop performs: it stops early only on a 2xx
response, never on the kind of exception. -/
def attempts_made : List AttemptOutcome → Nat
  | [] => 0
  | .ok _ :: _ => 1
  | _ :: rest => 1 + attempts_made rest

/-- C7 counterexample: an HTTP 401 authentication failure on attempt 1 is
not fatal — the loop makes a second attempt (and would even return that
attempt's success), and three straight 401s consume all three attempts
instead of stopping after the first. -/
theorem auth_error_retried_counterexample :
    attempts_made [.httpError 401, .ok { hasId := true, id := some "o1", status := some "new" }]
      = 2 ∧
    request_with_retries
        [.httpError 401, .ok { hasId := true, id := some "o1", status := some "new" }]
      = .ok { hasId := true, id := some "o1", status := some "new" } ∧
    attempts_made [.httpError 401, .httpError 401, .httpError 401] = 3 ∧
    attempts_made [.httpError 401, .httpError 401, .httpError 401] ≠ 1 :=
  ⟨rfl, rfl, rfl, by decide⟩

/-- C7 (amended): the retrying request helper treats every failed attempt
uniformly — authentication/credential failures (HTTP 401/403), rate-limit
responses and transient network errors are all caught and retried, so a
failure on attempt 1 never ends the loop when attempts remain: the result
is that of the remaining attempts, and exactly one extra attempt is
consumed. -/
theorem any_failure_is_retried (f : AttemptOutcome) (hf : ∀ b, f ≠ .ok b)
    (rest : List AttemptOutcome) (hne : rest ≠ []) :
    request_with_retries (f :: rest) = request_with_retries rest ∧
    attempts_made (f :: rest) = 1 + attempts_made rest := by
  obtain ⟨r, rs, rfl⟩ := List.exists_cons_of_ne_nil hne
  cases f with
  | ok b => exact absurd rfl (hf b)
  | httpError status => exact ⟨rfl, rfl⟩
  | netError msg => exact ⟨rfl, rfl⟩

/-- Witness for C7 (amended): a 403 on attempt 1 followed by two more
failing attempts — the helper's result equals that of the remaining two
attempts, and all three attempts are made. -/
theorem any_failure_is_retried_witness :
    request_with_retries [.httpError 403, .httpError 429, .netError "timeout"] =
      request_with_retries [.httpError 429, .netError "timeout"] ∧
    attempts_made [.httpError 403, .httpError 429, .netError "timeout"] =
      1 + attempts_made [.httpError 429, .netError "timeout"] :=
  any_failure_is_retried (.httpError 403) (fun b h => by cases h)
    [.httpError 429, .netError "timeout"] (by decide)

end BrokerGateway

namespace SwingWebhook

open BrokerGateway

/-- The dict returned by `place_order` (webhook-trading.py) as far as the
handler inspects it: whether an `id` key is present, its value, the
`status` value, and the `error` value. -/
structure PlaceOrderResult where
  hasId : Bool
  id : Option String
  status : Option String
  error : Option String
  deriving DecidableEq, Repr

/-- `place_order` as called by `lambda_handler` (no order options): when
`AUTO_EXECUTE` is false it returns the simulated response
`{"id": None, "status": "simulated", ...}` — note the `id` key is present,
holding null; otherwise it POSTs via `_request_with_retries` with
`retries=3` and returns the broker's JSON body, or `{"error": str(exc)}`
when the retries end in a raise. -/
def place_order (auto_execute : Bool) (attempts : List AttemptOutcome) :
    PlaceOrderResult :=
  if auto_execute = false then
    { hasId := true, id := none, status := some "simulated", error := none }
  else
    match request_with_retries attempts with
    | .ok body => { hasId := body.hasId, id := body.id, status := body.status, error := none }
    | .error msg => { hasId := false, id := none, status := none, error := some msg }

/-- Python `round` to an integer (round half to even), modelled on
rationals. -/
def roundHalfEven (x : Rat) : Int :=
  if x - ⌊x⌋ < 1 / 2 then ⌊x⌋
  else if 1 / 2 < x - ⌊x⌋ then ⌊x⌋ + 1
  else if ⌊x⌋ % 2 = 0 then ⌊x⌋ else ⌊x⌋ + 1

/-- Python `round(x, 4)` as used for the suggested prices. -/
def round4 (x : Rat) : Rat := (roundHalfEven (x * 10000) : Rat) / 10000

/-- The suggested stop-loss price computed in `lambda_handler` when
`stop_loss_pct > 0`: `round(current_price * (1 - pct/100), 4)` on BUY and
`round(current_price * (1 + pct/100), 4)` otherwise. -/
def suggested_stop_loss_price (action : String) (current_price stop_loss_pct : Rat) :
    Rat :=
  if action = "BUY" then round4 (current_price * (1 - stop_loss_pct / 100))
  else round4 (current_price * (1 + stop_loss_pct / 100))

/-- The suggested take-profit limit price computed in `lambda_handler` when
`limit_pct > 0`: `round(current_price * (1 - pct/100), 4)` on BUY and
`round(current_price * (1 + pct/100), 4)` otherwise — the same directions
as the stop-loss. `place_order` feeds this value to the bracket order's
`take_profit.limit_price` leg. -/
def suggested_limit_price (action : String) (current_price limit_pct : Rat) : Rat :=
  if action = "BUY" then round4 (current_price * (1 - limit_pct / 100))
  else round4 (current_price * (1 + limit_pct / 100))

/-- C4 (code bug): on a BUY with reference price 100 and both percentages
5, the derived stop price is 95 (strictly below, as the claim states), but
the derived take-profit limit price is also 95 — strictly below the
reference price, not strictly above it as the claim requires; on a SELL the
derived limit is 105, above rather than below. The limit computation copies
the stop-loss direction instead of inverting it. -/
theorem take_profit_direction_bug :
    suggested_stop_loss_price "BUY" 100 5 = 95 ∧
    suggested_stop_loss_price "BUY" 100 5 < 100 ∧
    suggested_limit_price "BUY" 100 5 = 95 ∧
    ¬ 100 < suggested_limit_price "BUY" 100 5 ∧
    suggested_stop_loss_price "SELL" 100 5 = 105 ∧
    100 < suggested_stop_loss_price "SELL" 100 5 ∧
    suggested_limit_price "SELL" 100 5 = 105 ∧
    ¬ suggested_limit_price "SELL" 100 5 < 100 := by
  have hb : ("BUY" : String) = "BUY" := rfl
  have hs : ¬ ("SELL" : String) = "BUY" := by decide
  unfold suggested_stop_loss_price suggested_limit_price
  simp only [if_pos hb, if_neg hs, round4, roundHalfEven]
  norm_num

/-- The parsed webhook payload fields the execution pipeline reads:
`symbol`, `action` and `source` are upper-cased/defaulted strings, `qty` is
`int(body.get('qty', 1))`, `confidence` is
`float(webhook_data.get('confidence', 1.0))`, and `price` is the optional
payload price. -/
structure WebhookData where
  symbol : String
  action : String
  qty : Int
  source : String
  confidence : Rat
  price : Option Rat
  deriving DecidableEq, Repr

/-- Environment-derived configuration of the webhook lambda:
`WEBHOOK_HMAC_SECRET` (optional), `DEBOUNCE_COUNT` (default 2),
`MIN_INTERVAL_SAME_SYMBOL` (default 1800), `MAX_TRADES_PER_DAY` (default
5), `MIN_CONFIDENCE` (default 0), `AUTO_EXECUTE` (default false), and
`WEBHOOK_ID_TTL` (default 3600). -/
structure HandlerConfig where
  hmac_secret : Option String
  debounce_count : Int
  min_interval_same_symbol : Int
  max_trades_per_day : Int
  min_confidence : Rat
  auto_execute : Bool
  id_ttl_seconds : Int
  deriving DecidableEq, Repr

/-- What the handler observes about the inbound request's signature:
whether the `X-Signature` header is present, and whether
`hmac.compare_digest(signature, computed)` would hold for it. -/
structure SignatureInfo where
  hasSignature : Bool
  signatureMatches : Bool
  deriving DecidableEq, Repr

/-- One item of the idempotency DynamoDB table, carrying the attributes the
handler reads; `put_item` replaces the whole item, so unrelated attributes
of a replaced item disappear. -/
structure DDBItem where
  count : Option Int
  last_executed_at : Option Int
  created_at : Option Int
  ttl : Option Int
  deriving DecidableEq, Repr

/-- The idempotency DynamoDB table (`WEBHOOK_IDEMPOTENCY_TABLE`), keyed by
`event_id`. -/
structure IdTable where
  items : String → Option DDBItem

/-- `put_item`: replace the item stored under a key. -/
def putItem (tbl : IdTable) (k : String) (it : DDBItem) : IdTable :=
  { items := fun q => if q = k then some it else tbl.items q }

/-- `int(resp.get('Item', {}).get('count', 0)) if 'Item' in resp else 0`. -/
def itemCount : Option DDBItem → Int
  | some it => it.count.getD 0
  | none => 0

/-- Broker-side oracles for one handler run: the outcome each attempt of
the order POST would have, and the account's reported buying power and
cash. -/
structure BrokerEnv where
  orderAttempts : List AttemptOutcome
  buying_power : Rat
  cash : Rat

/-- `stable_key = f"{symbol}|{action}|{qty}|{source}"`. -/
def stable_key (w : WebhookData) : String :=
  w.symbol ++ "|" ++ w.action ++ "|" ++ toString w.qty ++ "|" ++ w.source

/-- `event_id = sha256(stable_key)`, modelled by the (injective) stable key
itself. -/
def event_id (w : WebhookData) : String := stable_key w

def symbol_key (w : WebhookData) : String := "symbol::" ++ w.symbol

def debounce_key (w : WebhookData) : String := "debounce::" ++ event_id w

/-- `daily::{symbol}::{YYYY-MM-DD}`, with the current UTC date passed in as
`today`. -/
def daily_counter_key (w : WebhookData) (today : String) : String :=
  "daily::" ++ w.symbol ++ "::" ++ today

/-- Which return statement of `lambda_handler` produced the response. -/
inductive Outcome where
  | invalidSignature
  | duplicateSkipped
  | maxTradesReached
  | minIntervalNotPassed
  | debounceWaiting (count : Int)
  | noSymbol
  | noValidAction
  | invalidQuantity
  | lowConfidence
  | insufficientBuyingPower
  | executed
  deriving DecidableEq, Repr

/-- One entry of `trade_results.trades`. -/
structure TradeRecord where
  action : String
  symbol : String
  qty : Int
  success : Bool
  order_id : Option String
  order_status : Option String
  error : Option String
  deriving DecidableEq, Repr

/-- The handler's HTTP response: status code, which return produced it, and
the `trade_results.trades` list (empty on every early return). -/
structure HandlerResult where
  statusCode : Int
  outcome : Outcome
  trades : List TradeRecord
  deriving DecidableEq, Repr

/-- The min-interval gate: only when a `symbol::<sym>` item exists is
`now - int(item.get('last_executed_at', 0)) < MIN_INTERVAL_SAME_SYMBOL`
tested; an absent item passes. -/
def symbolIntervalBlocked (cfg : HandlerConfig) (tbl : IdTable) (w : WebhookData)
    (now : Int) : Bool :=
  match tbl.items (symbol_key w) with
  | some it => decide (now - it.last_executed_at.getD 0 < cfg.min_interval_same_symbol)
  | none => false

/-- `estimated_cost`: `float(price) * qty` when the payload carries a
truthy (non-zero) price, else 0. -/
def estimated_cost (w : WebhookData) : Rat :=
  match w.price with
  | some p => if p = 0 then 0 else p * w.qty
  | none => 0

/-- The buying-power gate
`AUTO_EXECUTE and buying_power > 0 and estimated_cost > buying_power`. -/
def buyingPowerBlocked (cfg : HandlerConfig) (w : WebhookData) (env : BrokerEnv) :
    Bool :=
  cfg.auto_execute && decide (0 < env.buying_power) &&
    decide (env.buying_power < estimated_cost w)

/-- The decision pipeline of `lambda_handler` after the HMAC gate, on the
path where the idempotency table is available and raises no exceptions:
dedupe lookup, per-symbol daily cap, per-symbol min interval, debounce
counter increment and write (the only state write before validation),
payload validation (symbol, action, quantity — in that order), the
confidence filter, the buying-power check, order placement, and finally the
recording of the dedupe entry, the symbol timestamp and the incremented
daily counter. -/
def process_webhook (cfg : HandlerConfig) (tbl : IdTable) (w : WebhookData)
    (now : Int) (today : String) (env : BrokerEnv) : HandlerResult × IdTable :=
  if (tbl.items (event_id w)).isSome then
    ({ statusCode := 200, outcome := .duplicateSkipped, trades := [] }, tbl)
  else if cfg.max_trades_per_day ≤ itemCount (tbl.items (daily_counter_key w today)) then
    ({ statusCode := 200, outcome := .maxTradesReached, trades := [] }, tbl)
  else if symbolIntervalBlocked cfg tbl w now then
    ({ statusCode := 200, outcome := .minIntervalNotPassed, trades := [] }, tbl)
  else
    let debCount := itemCount (tbl.items (debounce_key w)) + 1
    let tbl1 := putItem tbl (debounce_key w)
      { count := some debCount, last_executed_at := none, created_at := none,
        ttl := some (now + 300) }
    if debCount < cfg.debounce_count then
      ({ statusCode := 200, outcome := .debounceWaiting debCount, trades := [] }, tbl1)
    else if w.symbol = "" then
      ({ statusCode := 200, outcome := .noSymbol, trades := [] }, tbl1)
    else if ¬ (w.action = "BUY" ∨ w.action = "SELL") then
      ({ statusCode := 200, outcome := .noValidAction, trades := [] }, tbl1)
    else if w.qty ≤ 0 then
      ({ statusCode := 200, outcome := .invalidQuantity, trades := [] }, tbl1)
    else if w.confidence < cfg.min_confidence then
      ({ statusCode := 200, outcome := .lowConfidence, trades := [] }, tbl1)
    else if buyingPowerBlocked cfg w env then
      ({ statusCode := 200, outcome := .insufficientBuyingPower, trades := [] }, tbl1)
    else
      let order_result := place_order cfg.auto_execute env.orderAttempts
      let trade : TradeRecord :=
        { action := w.action, symbol := w.symbol, qty := w.qty,
          success := order_result.hasId, order_id := order_result.id,
          order_status := order_result.status, error := order_result.error }
      let tbl2 := putItem tbl1 (event_id w)
        { count := none, last_executed_at := none, created_at := some now,
          ttl := some (now + cfg.id_ttl_seconds) }
      let tbl3 := putItem tbl2 (symbol_key w)
        { count := none, last_executed_at := some now, created_at := none,
          ttl := some (now + 24 * 3600) }
      let tbl4 := putItem tbl3 (daily_counter_key w today)
        { count := some (itemCount (tbl3.items (daily_counter_key w today)) + 1),
          last_executed_at := none, created_at := none,
          ttl := some (now + 24 * 3600) }
      ({ statusCode := 200, outcome := .executed, trades := [trade] }, tbl4)

/-- `lambda_handler` (webhook-trading.py) from the HMAC verification on,
starting after JSON parsing: it returns 403 exactly when a secret is
configured and the request carries an `X-Signature` header whose
constant-time comparison fails; in every other case it proceeds with the
normal pipeline. -/
def lambda_handler (cfg : HandlerConfig) (sig : SignatureInfo) (tbl : IdTable)
    (w : WebhookData) (now : Int) (today : String) (env : BrokerEnv) :
    HandlerResult × IdTable :=
  if cfg.hmac_secret.isSome && sig.hasSignature && !sig.signatureMatches then
    ({ statusCode := 403, outcome := .invalidSignature, trades := [] }, tbl)
  else process_webhook cfg tbl w now today env

lemma process_webhook_statusCode (cfg : HandlerConfig) (tbl : IdTable)
    (w : WebhookData) (now : Int) (today : String) (env : BrokerEnv) :
    (process_webhook cfg tbl w now today env).1.statusCode = 200 := by
  simp only [process_webhook]
  split_ifs <;> rfl

lemma process_webhook_outcome_not_sig (cfg : HandlerConfig) (tbl : IdTable)
    (w : WebhookData) (now : Int) (today : String) (env : BrokerEnv) :
    (process_webhook cfg tbl w now today env).1.outcome ≠ .invalidSignature := by
  simp only [process_webhook]
  split_ifs <;> simp

end SwingWebhook

namespace SwingWebhook

/-- C10: signature verification is skipped for every request lacking the
`X-Signature` header — even with the HMAC secret configured, such a request
is never answered with the 403 signature-mismatch response, and the handler
behaves exactly as the normal pipeline with no signature check. -/
theorem missing_signature_bypasses_hmac
    (cfg : HandlerConfig) (sig : SignatureInfo) (tbl : IdTable) (w : WebhookData)
    (now : Int) (today : String) (env : BrokerEnv)
    (h : sig.hasSignature = false) :
    (lambda_handler cfg sig tbl w now today env).1.outcome ≠ .invalidSignature ∧
    (lambda_handler cfg sig tbl w now today env).1.statusCode ≠ 403 ∧
    lambda_handler cfg sig tbl w now today env =
      process_webhook cfg tbl w now today env := by
  have hg : (cfg.hmac_secret.isSome && sig.hasSignature && !sig.signatureMatches)
      = false := by
    rw [h]
    simp
  have he : lambda_handler cfg sig tbl w now today env =
      process_webhook cfg tbl w now today env := by
    unfold lambda_handler
    rw [hg]
    simp
  refine ⟨?_, ?_, he⟩
  · rw [he]
    exact process_webhook_outcome_not_sig cfg tbl w now today env
  · rw [he, process_webhook_statusCode]
    decide

/-- Handler configuration with an HMAC secret configured, used to witness
that omitting the header bypasses the check anyway. -/
def cfgW : HandlerConfig :=
  { hmac_secret := some "topsecret", debounce_count := 2,
    min_interval_same_symbol := 1800, max_trades_per_day := 5,
    min_confidence := 0, auto_execute := false, id_ttl_seconds := 3600 }

/-- A request with no `X-Signature` header. -/
def sigW : SignatureInfo := { hasSignature := false, signatureMatches := false }

/-- An empty idempotency table. -/
def tbl0 : IdTable := { items := fun _ => none }

/-- A valid BUY signal. -/
def wOK : WebhookData :=
  { symbol := "AAPL", action := "BUY", qty := 1, source := "test",
    confidence := 1, price := none }

/-- A signal whose derived quantity is not strictly positive. -/
def w0 : WebhookData :=
  { symbol := "AAPL", action := "BUY", qty := 0, source := "test",
    confidence := 1, price := none }

/-- A broker that answers HTTP 500 on all three attempts, with zero
reported buying power. -/
def envW : BrokerEnv :=
  { orderAttempts := [.httpError 500, .httpError 500, .httpError 500],
    buying_power := 0, cash := 0 }

/-- Witness for C10: with the secret configured and no `X-Signature`
header, the handler's outcome is not the signature rejection and the run
equals the normal pipeline. -/
theorem missing_signature_bypasses_hmac_witness :
    (lambda_handler cfgW sigW tbl0 wOK 1000 "2026-10-12" envW).1.outcome ≠
      .invalidSignature ∧
    lambda_handler cfgW sigW tbl0 wOK 1000 "2026-10-12" envW =
      process_webhook cfgW tbl0 wOK 1000 "2026-10-12" envW :=
  ⟨(missing_signature_bypasses_hmac cfgW sigW tbl0 wOK 1000 "2026-10-12" envW rfl).1,
   (missing_signature_bypasses_hmac cfgW sigW tbl0 wOK 1000 "2026-10-12" envW rfl).2.2⟩

/-- Handler configuration with `DEBOUNCE_COUNT = 1` (the first signal
already satisfies the debounce count) and no HMAC secret. -/
def cfgX : HandlerConfig :=
  { hmac_secret := none, debounce_count := 1,
    min_interval_same_symbol := 1800, max_trades_per_day := 5,
    min_confidence := 0, auto_execute := false, id_ttl_seconds := 3600 }

/-- C3 counterexample: a signal with quantity 0 is rejected by validation
(`invalidQuantity`), yet the handler has already created the debounce
counter record for it — the guardrail block, including the debounce
`put_item`, runs before validation. -/
theorem validation_after_state_write_counterexample :
    w0.qty ≤ 0 ∧
    (lambda_handler cfgX sigW tbl0 w0 1000 "2026-10-12" envW).1.outcome =
      .invalidQuantity ∧
    tbl0.items (debounce_key w0) = none ∧
    (lambda_handler cfgX sigW tbl0 w0 1000 "2026-10-12" envW).2.items (debounce_key w0) =
      some { count := some 1, last_executed_at := none, created_at := none,
             ttl := some 1300 } := by
  decide

lemma process_invalid_event (cfg : HandlerConfig) (tbl : IdTable) (w : WebhookData)
    (now : Int) (today : String) (env : BrokerEnv)
    (h : w.qty ≤ 0 ∨ ¬ (w.action = "BUY" ∨ w.action = "SELL")) :
    (process_webhook cfg tbl w now today env).1.outcome ≠ .executed ∧
    (process_webhook cfg tbl w now today env).1.trades = [] ∧
    ∀ k, k ≠ debounce_key w →
      (process_webhook cfg tbl w now today env).2.items k = tbl.items k := by
  have hput : ∀ it : DDBItem, ∀ k, k ≠ debounce_key w →
      (putItem tbl (debounce_key w) it).items k = tbl.items k :=
    fun it k hk => if_neg hk
  simp only [process_webhook]
  by_cases g1 : (tbl.items (event_id w)).isSome = true
  · rw [if_pos g1]
    exact ⟨by simp, rfl, fun k hk => rfl⟩
  · rw [if_neg g1]
    by_cases g2 : cfg.max_trades_per_day ≤ itemCount (tbl.items (daily_counter_key w today))
    · rw [if_pos g2]
      exact ⟨by simp, rfl, fun k hk => rfl⟩
    · rw [if_neg g2]
      by_cases g3 : symbolIntervalBlocked cfg tbl w now = true
      · rw [if_pos g3]
        exact ⟨by simp, rfl, fun k hk => rfl⟩
      · rw [if_neg g3]
        by_cases g4 : itemCount (tbl.items (debounce_key w)) + 1 < cfg.debounce_count
        · rw [if_pos g4]
          exact ⟨by simp, rfl, fun k hk => hput _ k hk⟩
        · rw [if_neg g4]
          by_cases g5 : w.symbol = ""
          · rw [if_pos g5]
            exact ⟨by simp, rfl, fun k hk => hput _ k hk⟩
          · rw [if_neg g5]
            by_cases g6 : w.action = "BUY" ∨ w.action = "SELL"
            · rw [if_neg (not_not_intro g6)]
              by_cases g7 : w.qty ≤ 0
              · rw [if_pos g7]
                exact ⟨by simp, rfl, fun k hk => hput _ k hk⟩
              · rcases h with hq | ha
                · exact absurd hq g7
                · exact absurd g6 ha
            · rw [if_pos g6]
              exact ⟨by simp, rfl, fun k hk => hput _ k hk⟩

/-- C3 (amended): an event whose quantity is not strictly positive or whose
action is not BUY/SELL is never executed (no trade entry is produced) and
no dedupe record, per-symbol timestamp or daily counter is written for it —
but the guardrail block runs before validation, so the debounce counter
record under `debounce::<event_id>` may be created or modified for such an
event; every other table key is left unchanged. -/
theorem invalid_event_not_executed_writes_only_debounce
    (cfg : HandlerConfig) (sig : SignatureInfo) (tbl : IdTable) (w : WebhookData)
    (now : Int) (today : String) (env : BrokerEnv)
    (h : w.qty ≤ 0 ∨ ¬ (w.action = "BUY" ∨ w.action = "SELL")) :
    (lambda_handler cfg sig tbl w now today env).1.outcome ≠ .executed ∧
    (lambda_handler cfg sig tbl w now today env).1.trades = [] ∧
    ∀ k, k ≠ debounce_key w →
      (lambda_handler cfg sig tbl w now today env).2.items k = tbl.items k := by
  unfold lambda_handler
  split_ifs with hgate
  · exact ⟨by simp, rfl, fun k hk => rfl⟩
  · exact process_invalid_event cfg tbl w now today env h

/-- Witness for C3 (amended): for the quantity-0 signal, no trade entry is
produced and the `symbol::AAPL` key is untouched. -/
theorem invalid_event_not_executed_writes_only_debounce_witness :
    (lambda_handler cfgX sigW tbl0 w0 1000 "2026-10-12" envW).1.trades = [] ∧
    (lambda_handler cfgX sigW tbl0 w0 1000 "2026-10-12" envW).2.items (symbol_key w0) =
      tbl0.items (symbol_key w0) := by
  have h := invalid_event_not_executed_writes_only_debounce cfgX sigW tbl0 w0 1000
    "2026-10-12" envW (Or.inl (by decide))
  exact ⟨h.2.1, h.2.2 (symbol_key w0) (by decide)⟩

/-- C8: when `AUTO_EXECUTE` is on and the broker answers HTTP 500 on all
three `placeOrder` attempts, no exception propagates: `place_order` returns
the `{error: message}` dict, and for a valid signal that passes every gate
the handler responds with status code 200, the trade executed path, and a
single trade entry whose `success` is false and whose `error` field carries
the message. -/
theorem broker_500s_reported_in_200_response
    (cfg : HandlerConfig) (sig : SignatureInfo) (tbl : IdTable) (w : WebhookData)
    (now : Int) (today : String) (env : BrokerEnv)
    (hgate : (cfg.hmac_secret.isSome && sig.hasSignature && !sig.signatureMatches) = false)
    (hdup : tbl.items (event_id w) = none)
    (hdaily : itemCount (tbl.items (daily_counter_key w today)) < cfg.max_trades_per_day)
    (hsym : symbolIntervalBlocked cfg tbl w now = false)
    (hdeb : cfg.debounce_count ≤ itemCount (tbl.items (debounce_key w)) + 1)
    (hsymbol : w.symbol ≠ "")
    (haction : w.action = "BUY" ∨ w.action = "SELL")
    (hqty : 0 < w.qty)
    (hconf : cfg.min_confidence ≤ w.confidence)
    (hbp : buyingPowerBlocked cfg w env = false)
    (hauto : cfg.auto_execute = true)
    (horders : env.orderAttempts = [.httpError 500, .httpError 500, .httpError 500]) :
    place_order cfg.auto_execute env.orderAttempts =
      { hasId := false, id := none, status := none, error := some "status 500" } ∧
    (lambda_handler cfg sig tbl w now today env).1.statusCode = 200 ∧
    (lambda_handler cfg sig tbl w now today env).1.outcome = .executed ∧
    (lambda_handler cfg sig tbl w now today env).1.trades =
      [{ action := w.action, symbol := w.symbol, qty := w.qty, success := false,
         order_id := none, order_status := none, error := some "status 500" }] := by
  have hplace : place_order cfg.auto_execute env.orderAttempts =
      { hasId := false, id := none, status := none, error := some "status 500" } := by
    rw [hauto, horders]
    rfl
  have h2 : ¬ cfg.max_trades_per_day ≤ itemCount (tbl.items (daily_counter_key w today)) :=
    not_le.mpr hdaily
  have h4 : ¬ itemCount (tbl.items (debounce_key w)) + 1 < cfg.debounce_count :=
    not_lt.mpr hdeb
  have h7 : ¬ w.qty ≤ 0 := by omega
  have h8 : ¬ w.confidence < cfg.min_confidence := not_lt.mpr hconf
  have he : lambda_handler cfg sig tbl w now today env =
      process_webhook cfg tbl w now today env := by
    unfold lambda_handler
    rw [hgate]
    simp
  rw [he]
  simp only [process_webhook, hdup, Option.isSome_none, Bool.false_eq_true, if_false,
    if_neg h2, hsym, if_neg h4, if_neg hsymbol, if_neg (not_not_intro haction),
    if_neg h7, if_neg h8, hbp, hplace]
  simp

/-- Handler configuration for the broker-failure scenario: execution
enabled, no HMAC secret, first signal passes the debounce count. -/
def cfg8 : HandlerConfig :=
  { hmac_secret := none, debounce_count := 1,
    min_interval_same_symbol := 1800, max_trades_per_day := 5,
    min_confidence := 0, auto_execute := true, id_ttl_seconds := 3600 }

/-- Witness for C8: the concrete run with three 500s — 200 response,
executed path, one trade with `success = false` and the error populated. -/
theorem broker_500s_reported_in_200_response_witness :
    (lambda_handler cfg8 sigW tbl0 wOK 1000 "2026-10-12" envW).1.statusCode = 200 ∧
    (lambda_handler cfg8 sigW tbl0 wOK 1000 "2026-10-12" envW).1.outcome = .executed ∧
    (lambda_handler cfg8 sigW tbl0 wOK 1000 "2026-10-12" envW).1.trades =
      [{ action := wOK.action, symbol := wOK.symbol, qty := wOK.qty, success := false,
         order_id := none, order_status := none, error := some "status 500" }] := by
  have h := broker_500s_reported_in_200_response cfg8 sigW tbl0 wOK 1000 "2026-10-12"
    envW rfl rfl (by decide) rfl (by decide) (by decide) (Or.inl rfl) (by decide)
    (by decide) rfl rfl rfl
  exact ⟨h.2.1, h.2.2.1, h.2.2.2⟩

end SwingWebhook
